import Mathlib

/-!
Verification of the rendevo-sdk HTTP client core (`BaseClient` in
`src/core/base-client.ts`) and the token-clearing behaviour of
`AuthAPI.logout`.  JavaScript values appearing in the client are modelled
by a `Json` inductive; thrown values by `Err`; a single fetch attempt's
observable outcome by `FetchOutcome`.  All definitions are translated
directly from the source; timestamps (`new Date().toISOString()`) are
passed in as an explicit `now : String` parameter.
-/

/-- Parsed JSON values (JS numbers restricted to integers; floating-point
values such as NaN are outside the model). -/
inductive Json where
  | null
  | bool (b : Bool)
  | num (n : Int)
  | str (s : String)
  | arr (elems : List Json)
  | obj (fields : List (String × Json))

/-- Lookup in a string-keyed record (JS plain objects have unique keys,
so first match suffices). -/
def lookupRecord : List (String × String) → String → Option String
  | [], _ => none
  | (k, v) :: rest, key => if k = key then some v else lookupRecord rest key

/-- Lookup of a field in a list of JSON object fields. -/
def lookupField : List (String × Json) → String → Option Json
  | [], _ => none
  | (k, v) :: rest, key => if k = key then some v else lookupField rest key

/-- JS object spread `\x7b...a, ...b\x7d`: keys of `b` override keys of `a`. -/
def mergeRecord (a b : List (String × String)) : List (String × String) :=
  a.filter (fun p => (lookupRecord b p.1).isNone) ++ b

/-- Replace the value stored under key `k` wherever it occurs, keeping
entry order. -/
def overwriteKey : List (String × String) → String → String → List (String × String)
  | [], _, _ => []
  | (k1, v1) :: rest, k, v =>
      if k1 = k then (k, v) :: overwriteKey rest k v
      else (k1, v1) :: overwriteKey rest k v

/-- JS property assignment `r[k] = v`: overwrite the key when present,
append it otherwise. -/
def setRecord (r : List (String × String)) (k v : String) : List (String × String) :=
  if (lookupRecord r k).isSome then overwriteKey r k v else r ++ [(k, v)]

/-- Whether `pat` is a prefix of the character list `s`. -/
def startsWithChars : List Char → List Char → Bool
  | [], _ => true
  | _ :: _, [] => false
  | p :: ps, c :: cs => p == c && startsWithChars ps cs

/-- Whether `pat` occurs as a contiguous sublist of `s`. -/
def charsContain (pat : List Char) : List Char → Bool
  | [] => pat.isEmpty
  | c :: rest => startsWithChars pat (c :: rest) || charsContain pat rest

/-- JS `String.prototype.includes`: substring containment. -/
def strContains (s pat : String) : Bool :=
  charsContain pat.toList s.toList

/-- The JS `in` operator on a parsed JSON value: only object literals carry
the string-keyed fields a parsed body can be probed for. -/
def hasField (j : Json) (k : String) : Bool :=
  match j with
  | .obj fields => (lookupField fields k).isSome
  | _ => false

/-- JS `typeof data === 'object' && data !== null` on a parsed JSON value:
arrays and objects are `typeof 'object'`; `null` is excluded explicitly. -/
def isObjectLike (j : Json) : Bool :=
  match j with
  | .obj _ => true
  | .arr _ => true
  | _ => false

/-- Field access `j.k` on a parsed JSON value. -/
def getField (j : Json) (k : String) : Option Json :=
  match j with
  | .obj fields => lookupField fields k
  | _ => none

/-- JS truthiness of a parsed JSON value (`if (body)`, `if (this.token)`).
Floating-point NaN is outside the model. -/
def jsTruthy : Json → Bool
  | .null => false
  | .bool b => b
  | .num n => n != 0
  | .str s => s != ""
  | .arr _ => true
  | .obj _ => true

/-- JS `x || d` on an optional number (`config.timeout || 10000`,
`options.timeout || this.timeout`): `undefined` and `0` are falsy. -/
def orNumDefault (o : Option Nat) (d : Nat) : Nat :=
  match o with
  | some n => if n = 0 then d else n
  | none => d

/-- Double-quoted JSON string with backslash and quote escaping. -/
def quoteString (s : String) : String :=
  "\"" ++ String.join (s.toList.map (fun c =>
    if c = '\\' then "\\\\" else if c = '"' then "\\\"" else String.singleton c)) ++ "\""

mutual

/-- `JSON.stringify` on a parsed JSON value (quote and backslash escaping;
control-character escapes are outside the model). -/
def stringify : Json → String
  | .null => "null"
  | .bool true => "true"
  | .bool false => "false"
  | .num n => toString n
  | .str s => quoteString s
  | .arr elems => "[" ++ stringifyElems elems ++ "]"
  | .obj fields => "\x7b" ++ stringifyFields fields ++ "\x7d"

def stringifyElems : List Json → String
  | [] => ""
  | [x] => stringify x
  | x :: y :: rest => stringify x ++ "," ++ stringifyElems (y :: rest)

def stringifyFields : List (String × Json) → String
  | [] => ""
  | [(k, v)] => quoteString k ++ ":" ++ stringify v
  | (k, v) :: f :: rest =>
      quoteString k ++ ":" ++ stringify v ++ "," ++ stringifyFields (f :: rest)

end

/-- A thrown JS value as the client observes it: a `RendevoAPIError`
(status code plus the `ApiErrorResponse` payload), an ordinary `Error`
(its `name` and `message`), or a thrown value that is not an `Error`
instance at all. -/
inductive Err where
  | api (statusCode : Nat) (response : Json)
  | generic (name message : String)
  | nonError

/-- `ClientConfig` from `src/types/common.ts`. -/
structure ClientConfig where
  baseURL : String
  timeout : Option Nat
  headers : List (String × String)

/-- The mutable instance state of `BaseClient`. -/
structure BaseClientState where
  baseURL : String
  timeout : Nat
  defaultHeaders : List (String × String)
  token : Option String
  refreshToken : Option String

/-- `config.baseURL.replace(/\/$/, '')`: the anchored regex removes at
most one trailing slash. -/
def stripTrailingSlash (s : String) : String :=
  if s.toList.getLast? = some '/' then String.mk s.toList.dropLast else s

/-- The `BaseClient` constructor (base-client.ts lines 28-35). -/
def mkBaseClient (config : ClientConfig) : BaseClientState :=
  { baseURL := stripTrailingSlash config.baseURL
    timeout := orNumDefault config.timeout 10000
    defaultHeaders := mergeRecord [("Content-Type", "application/json")] config.headers
    token := none
    refreshToken := none }

/-- `setToken` (base-client.ts lines 37-39). -/
def setToken (st : BaseClientState) (token : String) : BaseClientState :=
  { st with token := some token }

/-- `clearToken` (base-client.ts lines 41-43). -/
def clearToken (st : BaseClientState) : BaseClientState :=
  { st with token := none }

/-- `setRefreshToken` (base-client.ts lines 49-51). -/
def setRefreshToken (st : BaseClientState) (token : String) : BaseClientState :=
  { st with refreshToken := some token }

/-- `clearRefreshToken` (base-client.ts lines 57-59). -/
def clearRefreshToken (st : BaseClientState) : BaseClientState :=
  { st with refreshToken := none }

/-- Header assembly of a single attempt (base-client.ts lines 123-130):
spread the default headers, spread the per-call headers over them, then
assign `headers.Authorization = Bearer <token>` when the token is truthy
(an empty-string token is falsy in JS and assigns nothing). -/
def buildHeaders (defaultHeaders optHeaders : List (String × String))
    (token : Option String) : List (String × String) :=
  let merged := mergeRecord defaultHeaders optHeaders
  match token with
  | some t => if t = "" then merged else setRecord merged "Authorization" ("Bearer " ++ t)
  | none => merged

/-- The merged header map an attempt sends, as assembled from the client
state and the per-call header overrides. -/
def sentHeaders (st : BaseClientState) (optHeaders : List (String × String)) :
    List (String × String) :=
  buildHeaders st.defaultHeaders optHeaders st.token

/-- What the mocked `fetch` call does on one attempt: settle with a
response (transport status, `content-type` header, parsed JSON body),
abort (the timeout timer fired), throw an `Error`, or throw a non-Error
value. -/
inductive FetchOutcome where
  | response (status : Nat) (contentType : Option String) (body : Json)
  | abortError
  | throwErr (name message : String)
  | throwNonError

/-- `response.ok`: transport status in the 2xx range. -/
def statusOk (status : Nat) : Bool :=
  200 ≤ status && status ≤ 299

/-- The non-JSON content-type error message (base-client.ts lines 150-152);
`contentType || 'unknown'` treats both a missing and an empty header as
falsy. -/
def invalidFormatMessage (contentType : Option String) : String :=
  "Invalid response format: expected JSON but got " ++
    (match contentType with
     | some c => if c = "" then "unknown" else c
     | none => "unknown")

/-- The timeout error message (base-client.ts lines 199-201). -/
def timeoutMessage (endpoint : String) (timeoutMs : Nat) : String :=
  "Request timeout: The request to " ++ endpoint ++ " took longer than " ++
    toString timeoutMs ++ "ms"

/-- The normalized network error message (base-client.ts lines 208-210). -/
def networkErrorMessage (baseURL : String) : String :=
  "Network error: Unable to reach " ++ baseURL ++
    ". This may be due to CORS policy or network connectivity issues."

/-- `options.method || 'GET'` as used for the synthesized error payload
(base-client.ts line 171). -/
def resolveMethod : Option String → String
  | some m => if m = "" then "GET" else m
  | none => "GET"

/-- The synthesized `ApiErrorPayload` for a non-2xx response whose body is
not error-shaped (base-client.ts lines 166-173). -/
def synthesizedErrorPayload (status : Nat) (now endpoint method : String)
    (body : Json) : Json :=
  Json.obj
    [("success", Json.bool false),
     ("statusCode", Json.num (status : Int)),
     ("timestamp", Json.str now),
     ("path", Json.str endpoint),
     ("method", Json.str method),
     ("message", Json.str (match body with | .str s => s | _ => "An error occurred"))]

/-- The try block of a single attempt (base-client.ts lines 138-189):
the raw result before the catch block runs.  A non-JSON content type
throws `Error('Invalid response format: ...')` from inside the try block
(line 150), so that error still passes through the catch block below.
The timer abort surfaces as an `Error` named `AbortError`; its message
is never inspected. -/
def tryRequest (endpoint : String) (optMethod : Option String) (now : String)
    (outcome : FetchOutcome) : Except Err Json :=
  match outcome with
  | .response status contentType body =>
    if !(match contentType with
         | some c => strContains c "application/json"
         | none => false) then
      Except.error (Err.generic "Error" (invalidFormatMessage contentType))
    else if !statusOk status then
      if isObjectLike body && hasField body "message" && hasField body "statusCode" then
        Except.error (Err.api status body)
      else
        Except.error (Err.api status
          (synthesizedErrorPayload status now endpoint (resolveMethod optMethod) body))
    else
      if isObjectLike body && hasField body "data" && hasField body "success" then
        Except.ok body
      else
        Except.ok (Json.obj
          [("success", Json.bool true), ("data", body), ("timestamp", Json.str now)])
  | .abortError => Except.error (Err.generic "AbortError" "This operation was aborted")
  | .throwErr name message => Except.error (Err.generic name message)
  | .throwNonError => Except.error Err.nonError

/-- The catch block (base-client.ts lines 190-217): a `RendevoAPIError`
is rethrown untouched; an `Error` named `AbortError` becomes the timeout
error; any other `Error` whose message contains `CORS` or
`Network request failed` becomes the normalized network error; any other
`Error` is rethrown as-is; a non-Error value becomes the generic
unexpected error.  Every error thrown inside the try block — the
invalid-format error of line 150 included — passes through here. -/
def catchClassify (baseURL endpoint : String) (timeoutUsed : Nat) : Err → Err
  | .api statusCode response => .api statusCode response
  | .generic name message =>
      if name = "AbortError" then
        .generic "Error" (timeoutMessage endpoint timeoutUsed)
      else if strContains message "CORS" ||
          strContains message "Network request failed" then
        .generic "Error" (networkErrorMessage baseURL)
      else
        .generic name message
  | .nonError => .generic "Error" "An unexpected error occurred"

/-- A single request attempt, `executeRequest` (base-client.ts lines
118-218), given the outcome of the underlying `fetch` call: the try
block's result, with every thrown error routed through the catch block.
`optMethod`/`optTimeout` model `options.method` / `options.timeout`;
`now` models `new Date().toISOString()`. -/
def executeRequest (st : BaseClientState) (endpoint : String)
    (optMethod : Option String) (optTimeout : Option Nat) (now : String)
    (outcome : FetchOutcome) : Except Err Json :=
  match tryRequest endpoint optMethod now outcome with
  | .ok envelope => Except.ok envelope
  | .error e =>
      Except.error (catchClassify st.baseURL endpoint
        (orNumDefault optTimeout st.timeout) e)

/-- `isRetryableError` (base-client.ts lines 61-77): a `RendevoAPIError`
is retryable iff its status code is at least 500; another `Error` iff its
message contains one of the three network-failure markers; a non-Error
value never. -/
def isRetryableError : Err → Bool
  | .api statusCode _ => 500 ≤ statusCode
  | .generic _ message =>
      strContains message "Network error" || strContains message "fetch failed" ||
        strContains message "ECONNREFUSED"
  | .nonError => false

/-- The retry loop of `request` (base-client.ts lines 100-113), with
`fuel` = remaining attempts out of `maxRetries = 3` and `i` the 0-indexed
attempt number.  `attempts i` is the outcome of the `i`-th call to
`executeRequest`.  Returns the final result, the number of attempts made,
and the list of backoff delays (ms) slept between attempts; the delay
after failed attempt `i` is `2^i * 1000`. -/
def requestLoop (attempts : Nat → Except Err Json) :
    Nat → Nat → Except Err Json × Nat × List Nat
  | 0, _ => (Except.error (Err.generic "Error" "Request failed after retries"), 0, [])
  | fuel + 1, i =>
    match attempts i with
    | .ok v => (Except.ok v, 1, [])
    | .error e =>
      if fuel = 0 || !isRetryableError e then (Except.error e, 1, [])
      else
        let rest := requestLoop attempts fuel (i + 1)
        (rest.1, rest.2.1 + 1, (2 ^ i * 1000) :: rest.2.2)

/-- `request` (base-client.ts lines 83-116): in a test environment
(`NODE_ENV === 'test'`, `VITEST === 'true'`, or a global vitest marker)
a single attempt runs with no retry; otherwise the retry loop runs with
`maxRetries = 3`. -/
def request (isTestEnv : Bool) (attempts : Nat → Except Err Json) :
    Except Err Json × Nat × List Nat :=
  if isTestEnv then (attempts 0, 1, []) else requestLoop attempts 3 0

/-- A verb method's result (base-client.ts lines 220-279): `request`
followed by `.data` access on the returned envelope. -/
def verbData (isTestEnv : Bool) (attempts : Nat → Except Err Json) :
    Except Err (Option Json) :=
  match (request isTestEnv attempts).1 with
  | .ok envelope => Except.ok (getField envelope "data")
  | .error e => Except.error e

/-- The request body text a `post`/`patch`/`put` call passes to `fetch`
(base-client.ts lines 238, 251, 264): `body ? JSON.stringify(body) :
undefined` — the body is serialized only when truthy. -/
def serializedBody (body : Option Json) : Option String :=
  match body with
  | some v => if jsTruthy v then some (stringify v) else none
  | none => none

/-- The `(method, body text)` pair `post` passes to `request`
(base-client.ts lines 231-242). -/
def postInit (body : Option Json) : String × Option String :=
  ("POST", serializedBody body)

/-- The `(method, body text)` pair `patch` passes to `request`
(base-client.ts lines 244-255). -/
def patchInit (body : Option Json) : String × Option String :=
  ("PATCH", serializedBody body)

/-- The `(method, body text)` pair `put` passes to `request`
(base-client.ts lines 257-268). -/
def putInit (body : Option Json) : String × Option String :=
  ("PUT", serializedBody body)

/-- `AuthAPI.logout` (auth.api.ts lines 60-65) as a state transformer:
`await this.post('/auth/logout', data)` either resolves or throws (its
outcome is `postResult`); the token and refresh token are cleared only on
the lines after a successful await, so a throw leaves the state
untouched. -/
def logout (st : BaseClientState) (postResult : Except Err Json) :
    Except Err Json × BaseClientState :=
  match postResult with
  | .ok response => (Except.ok response, clearRefreshToken (clearToken st))
  | .error e => (Except.error e, st)

/-- A sample client configuration for concrete evaluations. -/
def demoConfig : ClientConfig :=
  { baseURL := "http://localhost:3000/api", timeout := none, headers := [] }

/-- The client state built from `demoConfig`. -/
def demoState : BaseClientState :=
  mkBaseClient demoConfig

/-- The specification's success-envelope shape, written from the spec's
words (`\x7bsuccess, data, timestamp\x7d`), to compare with the shape test
the code performs. -/
def specEnvelopeShaped (j : Json) : Bool :=
  isObjectLike j && hasField j "success" && hasField j "data" && hasField j "timestamp"

/-- Lookup distributes over append when the key misses the first list. -/
theorem lookupRecord_append_of_none {l1 : List (String × String)} {k : String}
    (l2 : List (String × String)) (h : lookupRecord l1 k = none) :
    lookupRecord (l1 ++ l2) k = lookupRecord l2 k := by
  induction l1 with
  | nil => rfl
  | cons p rest ih =>
    obtain ⟨k1, v1⟩ := p
    by_cases hk : k1 = k
    · subst hk
      simp [lookupRecord] at h
    · simp only [lookupRecord, if_neg hk] at h
      simpa [lookupRecord, hk] using ih h

/-- Filtering cannot make a missing key appear. -/
theorem lookupRecord_filter_none {l : List (String × String)} {k : String}
    (p : String × String → Bool) (h : lookupRecord l k = none) :
    lookupRecord (l.filter p) k = none := by
  induction l with
  | nil => rfl
  | cons q rest ih =>
    obtain ⟨k1, v1⟩ := q
    by_cases hk : k1 = k
    · subst hk
      simp [lookupRecord] at h
    · simp only [lookupRecord, if_neg hk] at h
      rw [List.filter_cons]
      by_cases hp : p (k1, v1) = true
      · rw [if_pos hp]
        simpa [lookupRecord, hk] using ih h
      · rw [if_neg hp]
        exact ih h

/-- Lookup in an object spread `\x7b...a, ...b\x7d`: a key of `b` wins,
otherwise the key of `a` is seen. -/
theorem lookupRecord_mergeRecord (a b : List (String × String)) (k : String) :
    lookupRecord (mergeRecord a b) k =
      match lookupRecord b k with
      | some v => some v
      | none => lookupRecord a k := by
  induction a with
  | nil =>
    simp only [mergeRecord, List.filter_nil, List.nil_append]
    cases h : lookupRecord b k <;> simp [lookupRecord]
  | cons p rest ih =>
    obtain ⟨k1, v1⟩ := p
    simp only [mergeRecord] at ih ⊢
    rw [List.filter_cons]
    by_cases hb : (lookupRecord b k1).isNone = true
    · rw [if_pos hb]
      by_cases hk : k1 = k
      · subst hk
        rw [Option.isNone_iff_eq_none] at hb
        simp [lookupRecord, hb]
      · simpa [lookupRecord, hk] using ih
    · rw [if_neg hb]
      rw [ih]
      by_cases hk : k1 = k
      · subst hk
        cases hbk : lookupRecord b k1 with
        | none => rw [hbk] at hb; simp at hb
        | some v => simp [lookupRecord]
      · simp [lookupRecord, hk]

/-- Overwriting an existing key, then looking the key up, sees the new
value. -/
theorem lookupRecord_overwriteKey (r : List (String × String)) (k v : String)
    (h : (lookupRecord r k).isSome = true) :
    lookupRecord (overwriteKey r k v) k = some v := by
  induction r with
  | nil => simp [lookupRecord] at h
  | cons p rest ih =>
    obtain ⟨k1, v1⟩ := p
    by_cases hk : k1 = k
    · subst hk
      simp [overwriteKey, lookupRecord]
    · simp only [lookupRecord, if_neg hk] at h
      simp only [overwriteKey, if_neg hk]
      simpa [lookupRecord, hk] using ih h

/-- JS property assignment followed by lookup of the same key. -/
theorem lookupRecord_setRecord (r : List (String × String)) (k v : String) :
    lookupRecord (setRecord r k v) k = some v := by
  unfold setRecord
  by_cases h : (lookupRecord r k).isSome = true
  · rw [if_pos h]
    exact lookupRecord_overwriteKey r k v h
  · rw [if_neg h]
    rw [Option.not_isSome_iff_eq_none] at h
    rw [lookupRecord_append_of_none _ h]
    simp [lookupRecord]

/-- A first attempt that resolves ends `request` at one attempt with no
backoff, in test mode and out of it. -/
theorem request_ok_first (isTestEnv : Bool) (attempts : Nat → Except Err Json)
    (v : Json) (h : attempts 0 = Except.ok v) :
    request isTestEnv attempts = (Except.ok v, 1, []) := by
  cases isTestEnv <;> simp [request, requestLoop, h]

/-- A non-retryable first error ends `request` at one attempt with no
backoff. -/
theorem request_error_no_retry (attempts : Nat → Except Err Json) (e : Err)
    (h : attempts 0 = Except.error e) (hr : isRetryableError e = false) :
    request false attempts = (Except.error e, 1, []) := by
  simp [request, requestLoop, h, hr]

/-- The retry loop never makes more attempts than its fuel (nor fewer
than zero); with `maxRetries = 3` this bounds every run at 3 attempts. -/
theorem requestLoop_count_le (attempts : Nat → Except Err Json) :
    ∀ fuel i, (requestLoop attempts fuel i).2.1 ≤ max 1 fuel := by
  intro fuel
  induction fuel with
  | zero => intro i; simp [requestLoop]
  | succ n ih =>
    intro i
    cases h : attempts i with
    | ok v =>
      simp only [requestLoop, h]
      show (1 : Nat) ≤ max 1 (n + 1)
      omega
    | error e =>
      by_cases hn : (n = 0 || !isRetryableError e) = true
      · simp only [requestLoop, h]
        rw [if_pos hn]
        show (1 : Nat) ≤ max 1 (n + 1)
        omega
      · simp only [requestLoop, h]
        rw [if_neg hn]
        have hn' : ¬n = 0 := by
          intro h0
          subst h0
          simp at hn
        have hrec := ih (i + 1)
        show (requestLoop attempts n (i + 1)).2.1 + 1 ≤ max 1 (n + 1)
        omega

/-- C2: in non-test mode, when every attempt fails with a
`RendevoAPIError` whose status code lies in [500,599] (a retryable server
fault), exactly 3 attempts run with backoff delays of `2^0*1000 = 1000`
ms after attempt 1 and `2^1*1000 = 2000` ms after attempt 2, never more
than 3 attempts in any run; in test mode exactly one attempt runs
regardless of status. -/
theorem server_error_retry_policy (attempts : Nat → Except Err Json)
    (h : ∀ i, ∃ statusCode payload, 500 ≤ statusCode ∧ statusCode ≤ 599 ∧
      attempts i = Except.error (Err.api statusCode payload)) :
    (request false attempts).2.1 = 3 ∧
    (request false attempts).2.2 = [1000, 2000] ∧
    (∀ other : Nat → Except Err Json, (request false other).2.1 ≤ 3) ∧
    (request true attempts).2.1 = 1 := by
  obtain ⟨s0, p0, h0a, _, h0⟩ := h 0
  obtain ⟨s1, p1, h1a, _, h1⟩ := h 1
  obtain ⟨s2, p2, h2a, _, h2⟩ := h 2
  have r0 : isRetryableError (Err.api s0 p0) = true := by
    simpa [isRetryableError] using h0a
  have r1 : isRetryableError (Err.api s1 p1) = true := by
    simpa [isRetryableError] using h1a
  refine ⟨?_, ?_, fun other => ?_, rfl⟩
  · simp [request, requestLoop, h0, h1, h2, r0, r1]
  · simp [request, requestLoop, h0, h1, h2, r0, r1]
  · simpa [request] using requestLoop_count_le other 3 0

/-- Witness for `server_error_retry_policy`: a server answering 500 on
every attempt. -/
theorem server_error_retry_policy_witness :
    (request false (fun _ => Except.error (Err.api 500 (Json.obj [])))).2.1 = 3 ∧
    (request false (fun _ => Except.error (Err.api 500 (Json.obj [])))).2.2 = [1000, 2000] ∧
    (∀ other : Nat → Except Err Json, (request false other).2.1 ≤ 3) ∧
    (request true (fun _ => Except.error (Err.api 500 (Json.obj [])))).2.1 = 1 :=
  server_error_retry_policy _
    (fun _ => ⟨500, Json.obj [], by decide, by decide, rfl⟩)

/-- C3: a 4xx JSON response raises a `RendevoAPIError` whose statusCode
equals the transport status, the error is classified non-retryable, and
`request` makes exactly one attempt with no backoff. -/
theorem client_error_no_retry (st : BaseClientState) (endpoint : String)
    (optMethod : Option String) (optTimeout : Option Nat) (now : String)
    (status : Nat) (contentType : String) (body : Json)
    (hct : strContains contentType "application/json" = true)
    (h1 : 400 ≤ status) (h2 : status ≤ 499)
    (attempts : Nat → Except Err Json)
    (hatt : attempts 0 = executeRequest st endpoint optMethod optTimeout now
      (FetchOutcome.response status (some contentType) body)) :
    request false attempts =
      (executeRequest st endpoint optMethod optTimeout now
        (FetchOutcome.response status (some contentType) body), 1, []) ∧
    ∃ payload,
      executeRequest st endpoint optMethod optTimeout now
          (FetchOutcome.response status (some contentType) body) =
        Except.error (Err.api status payload) ∧
      isRetryableError (Err.api status payload) = false := by
  have hok : statusOk status = false := by
    simp [statusOk, show ¬(status ≤ 299) by omega]
  have hretry : ∀ payload, isRetryableError (Err.api status payload) = false := by
    intro payload
    simp [isRetryableError, show ¬(500 ≤ status) by omega]
  by_cases hb : (isObjectLike body && hasField body "message" &&
      hasField body "statusCode") = true
  · have hexec : executeRequest st endpoint optMethod optTimeout now
        (FetchOutcome.response status (some contentType) body) =
          Except.error (Err.api status body) := by
      simp [executeRequest, tryRequest, catchClassify, hct, hok, hb]
    rw [hexec] at hatt
    refine ⟨?_, body, hexec, hretry body⟩
    rw [hexec]
    exact request_error_no_retry attempts _ hatt (hretry body)
  · have hexec : executeRequest st endpoint optMethod optTimeout now
        (FetchOutcome.response status (some contentType) body) =
          Except.error (Err.api status
            (synthesizedErrorPayload status now endpoint (resolveMethod optMethod) body)) := by
      simp [executeRequest, tryRequest, catchClassify, hct, hok, hb]
    rw [hexec] at hatt
    refine ⟨?_, _, hexec, hretry _⟩
    rw [hexec]
    exact request_error_no_retry attempts _ hatt (hretry _)

/-- Witness for `client_error_no_retry`: a 404 with an error-shaped
body. -/
theorem client_error_no_retry_witness :
    request false (fun _ => executeRequest demoState "/users/1" (some "GET") none "ts"
        (FetchOutcome.response 404 (some "application/json")
          (Json.obj [("message", Json.str "User not found"),
                     ("statusCode", Json.num 404)]))) =
      (executeRequest demoState "/users/1" (some "GET") none "ts"
        (FetchOutcome.response 404 (some "application/json")
          (Json.obj [("message", Json.str "User not found"),
                     ("statusCode", Json.num 404)])), 1, []) ∧
    ∃ payload,
      executeRequest demoState "/users/1" (some "GET") none "ts"
          (FetchOutcome.response 404 (some "application/json")
            (Json.obj [("message", Json.str "User not found"),
                       ("statusCode", Json.num 404)])) =
        Except.error (Err.api 404 payload) ∧
      isRetryableError (Err.api 404 payload) = false :=
  client_error_no_retry demoState "/users/1" (some "GET") none "ts" 404
    "application/json"
    (Json.obj [("message", Json.str "User not found"), ("statusCode", Json.num 404)])
    (by decide) (by decide) (by decide) _ rfl

/-- C7: logout clears both tokens exactly when the remote POST resolves;
when the remote call throws, the returned state is the pre-call state,
both tokens included. -/
theorem logout_token_clearing (st : BaseClientState) (postResult : Except Err Json) :
    (∀ response, postResult = Except.ok response →
      logout st postResult =
        (Except.ok response, { st with token := none, refreshToken := none })) ∧
    (∀ e, postResult = Except.error e →
      logout st postResult = (Except.error e, st)) := by
  constructor
  · intro response h
    subst h
    rfl
  · intro e h
    subst h
    rfl

/-- Witness for `logout_token_clearing`: a client holding both tokens,
on a resolved and on a failed remote call. -/
theorem logout_token_clearing_witness :
    logout (setRefreshToken (setToken demoState "T1") "R1") (Except.ok (Json.obj [])) =
      (Except.ok (Json.obj []),
        { setRefreshToken (setToken demoState "T1") "R1" with
            token := none, refreshToken := none }) ∧
    logout (setRefreshToken (setToken demoState "T1") "R1")
        (Except.error Err.nonError) =
      (Except.error Err.nonError, setRefreshToken (setToken demoState "T1") "R1") :=
  ⟨(logout_token_clearing _ _).1 _ rfl, (logout_token_clearing _ _).2 _ rfl⟩

/-- C9: construction strips exactly one trailing slash from the base
address (a base address with no trailing slash is kept unchanged), the
timeout defaults to 10000 ms when none is given, and the default header
map is Content-Type: application/json merged with the caller headers,
the caller entry winning on a shared key. -/
theorem constructor_config_normalization (s : String) (timeout : Option Nat)
    (headers : List (String × String)) (k : String)
    (hs : s.toList.getLast? ≠ some '/') :
    (mkBaseClient (ClientConfig.mk (s ++ "/") timeout headers)).baseURL = s ∧
    (mkBaseClient (ClientConfig.mk s timeout headers)).baseURL = s ∧
    (mkBaseClient (ClientConfig.mk s none headers)).timeout = 10000 ∧
    lookupRecord (mkBaseClient (ClientConfig.mk s timeout headers)).defaultHeaders k =
      (match lookupRecord headers k with
       | some v => some v
       | none => lookupRecord [("Content-Type", "application/json")] k) := by
  refine ⟨?_, ?_, rfl, ?_⟩
  · show stripTrailingSlash (s ++ "/") = s
    obtain ⟨l⟩ := s
    show stripTrailingSlash (String.mk (l ++ ['/'])) = String.mk l
    simp [stripTrailingSlash, String.toList, List.getLast?_concat, List.dropLast_concat]
  · show stripTrailingSlash s = s
    unfold stripTrailingSlash
    rw [if_neg hs]
  · show lookupRecord (mergeRecord [("Content-Type", "application/json")] headers) k = _
    exact lookupRecord_mergeRecord _ _ _

/-- Witness for `constructor_config_normalization` at a concrete
configuration whose caller headers override Content-Type. -/
theorem constructor_config_normalization_witness :
    (mkBaseClient (ClientConfig.mk ("http://h" ++ "/") (some 30000)
      [("Content-Type", "text/plain")])).baseURL = "http://h" ∧
    (mkBaseClient (ClientConfig.mk "http://h" none
      [("Content-Type", "text/plain")])).timeout = 10000 ∧
    lookupRecord (mkBaseClient (ClientConfig.mk "http://h" (some 30000)
      [("Content-Type", "text/plain")])).defaultHeaders "Content-Type" =
      some "text/plain" := by
  have h := constructor_config_normalization "http://h" (some 30000)
    [("Content-Type", "text/plain")] "Content-Type" (by decide)
  exact ⟨h.1, (constructor_config_normalization "http://h" none
    [("Content-Type", "text/plain")] "Content-Type" (by decide)).2.2.1,
    h.2.2.2.trans rfl⟩

/-- C10: post, patch and put serialize the body only when it is truthy:
an omitted body and every defined-but-falsy body (0, empty string,
false, null) alike produce no body text, and exactly those do; a truthy
body is sent as its JSON serialization. -/
theorem falsy_body_dropped :
    (∀ body, (postInit body).2 = serializedBody body ∧
      (patchInit body).2 = serializedBody body ∧
      (putInit body).2 = serializedBody body) ∧
    serializedBody none = none ∧
    (∀ v, serializedBody (some v) = none ↔ jsTruthy v = false) ∧
    (∀ v, jsTruthy v = true → serializedBody (some v) = some (stringify v)) ∧
    serializedBody (some (Json.num 0)) = none ∧
    serializedBody (some (Json.str "")) = none ∧
    serializedBody (some (Json.bool false)) = none ∧
    serializedBody (some Json.null) = none := by
  refine ⟨fun body => ⟨rfl, rfl, rfl⟩, rfl, fun v => ?_, fun v hv => ?_,
    by decide, by decide, rfl, rfl⟩
  · cases hv : jsTruthy v <;> simp [serializedBody, hv]
  · simp [serializedBody, hv]

/-- Witness for `falsy_body_dropped`: a truthy body is serialized, the
falsy number 0 is dropped. -/
theorem falsy_body_dropped_witness :
    (postInit (some (Json.num 7))).2 = serializedBody (some (Json.num 7)) ∧
    serializedBody (some (Json.num 7)) = some (stringify (Json.num 7)) ∧
    serializedBody (some (Json.num 0)) = none :=
  ⟨(falsy_body_dropped.1 (some (Json.num 7))).1,
    falsy_body_dropped.2.2.2.1 (Json.num 7) (by decide),
    falsy_body_dropped.2.2.2.2.1⟩

/-- C1 counterexample: a 2xx JSON body carrying success and data but no
timestamp field is not shaped as the three-field envelope of the claim,
yet the verb method returns its inner data value (5), not the raw parsed
body. -/
theorem envelope_missing_timestamp_unwrapped :
    specEnvelopeShaped (Json.obj [("success", Json.bool true), ("data", Json.num 5)])
      = false ∧
    verbData true (fun _ => executeRequest demoState "/items" (some "GET") none "ts"
        (FetchOutcome.response 200 (some "application/json")
          (Json.obj [("success", Json.bool true), ("data", Json.num 5)]))) =
      Except.ok (some (Json.num 5)) ∧
    Json.num 5 ≠ Json.obj [("success", Json.bool true), ("data", Json.num 5)] :=
  ⟨rfl, rfl, fun h => Json.noConfusion h⟩

/-- C1 amended: the envelope test of a 2xx JSON response checks only
that the body is an object with both success and data fields (timestamp
is not inspected); such bodies are returned with their inner data value,
every other 2xx body is wrapped so the verb method returns the raw body
as the data value. -/
theorem success_body_unwrapping (st : BaseClientState) (endpoint : String)
    (optMethod : Option String) (optTimeout : Option Nat) (now : String)
    (isTestEnv : Bool) (status : Nat) (contentType : String) (body : Json)
    (hct : strContains contentType "application/json" = true)
    (h1 : 200 ≤ status) (h2 : status ≤ 299) :
    verbData isTestEnv (fun _ => executeRequest st endpoint optMethod optTimeout now
        (FetchOutcome.response status (some contentType) body)) =
      (if isObjectLike body && hasField body "data" && hasField body "success" then
        Except.ok (getField body "data")
      else
        Except.ok (some body)) := by
  have hok : statusOk status = true := by
    simp [statusOk, h1, h2]
  by_cases hb : (isObjectLike body && hasField body "data" && hasField body "success")
      = true
  · have hexec : (fun _ : Nat => executeRequest st endpoint optMethod optTimeout now
        (FetchOutcome.response status (some contentType) body)) 0 = Except.ok body := by
      simp [executeRequest, tryRequest, catchClassify, hct, hok, hb]
    rw [if_pos hb]
    have hreq := request_ok_first isTestEnv
      (fun _ => executeRequest st endpoint optMethod optTimeout now
        (FetchOutcome.response status (some contentType) body)) body hexec
    simp [verbData, hreq]
  · have hexec : (fun _ : Nat => executeRequest st endpoint optMethod optTimeout now
        (FetchOutcome.response status (some contentType) body)) 0 =
          Except.ok (Json.obj [("success", Json.bool true), ("data", body),
            ("timestamp", Json.str now)]) := by
      simp [executeRequest, tryRequest, catchClassify, hct, hok, hb]
    rw [if_neg hb]
    have hreq := request_ok_first isTestEnv
      (fun _ => executeRequest st endpoint optMethod optTimeout now
        (FetchOutcome.response status (some contentType) body)) _ hexec
    simp [verbData, hreq, getField, lookupField]

/-- Witness for `success_body_unwrapping`: a bare 2xx array body is
wrapped and returned whole. -/
theorem success_body_unwrapping_witness :
    verbData true (fun _ => executeRequest demoState "/items" (some "GET") none "ts"
        (FetchOutcome.response 200 (some "application/json")
          (Json.arr [Json.num 1]))) =
      Except.ok (some (Json.arr [Json.num 1])) := by
  have h := success_body_unwrapping demoState "/items" (some "GET") none "ts" true 200
    "application/json" (Json.arr [Json.num 1]) (by decide) (by decide) (by decide)
  simpa using h

/-- C8 counterexample: setToken with the empty string stores a falsy
token, so the next attempt's merged header map carries no Authorization
entry, although the claim requires Bearer plus the token. -/
theorem empty_token_no_auth_header :
    (setToken demoState "").token = some "" ∧
    lookupRecord (sentHeaders (setToken demoState "") []) "Authorization" = none :=
  ⟨rfl, rfl⟩

/-- C8 amended: after setToken with a nonempty token, every attempt's
merged header map maps Authorization to Bearer plus the token; after
clearToken the headers are exactly the defaults merged with per-call
overrides, so Authorization is absent unless one of those supplies it. -/
theorem auth_header_lifecycle (st : BaseClientState)
    (optHeaders : List (String × String)) (t : String) (ht : t ≠ "") :
    lookupRecord (sentHeaders (setToken st t) optHeaders) "Authorization" =
      some ("Bearer " ++ t) ∧
    sentHeaders (clearToken st) optHeaders = mergeRecord st.defaultHeaders optHeaders ∧
    (lookupRecord st.defaultHeaders "Authorization" = none →
      lookupRecord optHeaders "Authorization" = none →
      lookupRecord (sentHeaders (clearToken st) optHeaders) "Authorization" = none) := by
  refine ⟨?_, rfl, fun hd ho => ?_⟩
  · show lookupRecord (buildHeaders st.defaultHeaders optHeaders (some t))
      "Authorization" = some ("Bearer " ++ t)
    simp only [buildHeaders, if_neg ht]
    exact lookupRecord_setRecord _ _ _
  · show lookupRecord (buildHeaders st.defaultHeaders optHeaders none)
      "Authorization" = none
    simp only [buildHeaders]
    rw [lookupRecord_mergeRecord]
    simp [hd, ho]

/-- Witness for `auth_header_lifecycle`: a concrete token set then
cleared. -/
theorem auth_header_lifecycle_witness :
    lookupRecord (sentHeaders (setToken demoState "T1") []) "Authorization" =
      some ("Bearer " ++ "T1") ∧
    lookupRecord (sentHeaders (clearToken demoState) []) "Authorization" = none := by
  have h := auth_header_lifecycle demoState [] "T1" (by decide)
  exact ⟨h.1, h.2.2 (by decide) rfl⟩

/-- C4: a non-2xx JSON response raises a `RendevoAPIError` carrying the
parsed body exactly when the body is an object with both message and
statusCode fields; otherwise the payload is synthesized with the
transport status as statusCode, the endpoint as path, the request
method, and the raw body as message when it was a plain string, else the
generic text. -/
theorem non2xx_error_payload (st : BaseClientState) (endpoint : String)
    (optMethod : Option String) (optTimeout : Option Nat) (now : String)
    (status : Nat) (contentType : String) (body : Json)
    (hct : strContains contentType "application/json" = true)
    (hstatus : statusOk status = false) :
    ((isObjectLike body && hasField body "message" && hasField body "statusCode")
        = true →
      executeRequest st endpoint optMethod optTimeout now
          (FetchOutcome.response status (some contentType) body) =
        Except.error (Err.api status body)) ∧
    ((isObjectLike body && hasField body "message" && hasField body "statusCode")
        = false →
      executeRequest st endpoint optMethod optTimeout now
          (FetchOutcome.response status (some contentType) body) =
        Except.error (Err.api status
          (synthesizedErrorPayload status now endpoint (resolveMethod optMethod)
            body))) ∧
    getField (synthesizedErrorPayload status now endpoint (resolveMethod optMethod)
        body) "statusCode" = some (Json.num (status : Int)) ∧
    getField (synthesizedErrorPayload status now endpoint (resolveMethod optMethod)
        body) "path" = some (Json.str endpoint) ∧
    getField (synthesizedErrorPayload status now endpoint (resolveMethod optMethod)
        body) "method" = some (Json.str (resolveMethod optMethod)) ∧
    getField (synthesizedErrorPayload status now endpoint (resolveMethod optMethod)
        body) "message" =
      some (Json.str (match body with | Json.str s => s | _ => "An error occurred")) := by
  refine ⟨fun hb => ?_, fun hb => ?_, ?_, ?_, ?_, ?_⟩
  · simp [executeRequest, tryRequest, catchClassify, hct, hstatus, hb]
  · simp [executeRequest, tryRequest, catchClassify, hct, hstatus, hb]
  · simp [synthesizedErrorPayload, getField, lookupField]
  · simp [synthesizedErrorPayload, getField, lookupField]
  · simp [synthesizedErrorPayload, getField, lookupField]
  · simp [synthesizedErrorPayload, getField, lookupField]

/-- Witness for `non2xx_error_payload`: a 500 whose body is a bare
string becomes a synthesized payload carrying that string as message. -/
theorem non2xx_error_payload_witness :
    executeRequest demoState "/x" (some "POST") none "ts"
        (FetchOutcome.response 500 (some "application/json") (Json.str "oops")) =
      Except.error (Err.api 500
        (synthesizedErrorPayload 500 "ts" "/x" (resolveMethod (some "POST"))
          (Json.str "oops"))) ∧
    getField (synthesizedErrorPayload 500 "ts" "/x" (resolveMethod (some "POST"))
        (Json.str "oops")) "message" = some (Json.str "oops") := by
  have h := non2xx_error_payload demoState "/x" (some "POST") none "ts" 500
    "application/json" (Json.str "oops") (by decide) (by decide)
  exact ⟨h.2.1 (by decide), h.2.2.2.2.2⟩

/-- C5 counterexample: a timeout error raised for an endpoint whose path
embeds the text Network error is classified retryable — the retry loop
runs it 3 times instead of propagating it on first occurrence as the
claim states for timeout errors. -/
theorem timeout_error_retried :
    isRetryableError
        (Err.generic "Error" (timeoutMessage "/Network error/users" 10000)) = true ∧
    executeRequest demoState "/Network error/users" (some "GET") none "ts"
        FetchOutcome.abortError =
      Except.error (Err.generic "Error" (timeoutMessage "/Network error/users" 10000)) ∧
    (request false (fun _ => executeRequest demoState "/Network error/users"
        (some "GET") none "ts" FetchOutcome.abortError)).2.1 = 3 :=
  ⟨rfl, rfl, rfl⟩

/-- C5 amended: a generic error is retried exactly when its message
contains one of the markers Network error, fetch failed or ECONNREFUSED;
a timeout error whose message contains none of the markers is not
retried; a non-Error thrown value is never retried; a non-retryable
first error propagates after exactly one attempt. -/
theorem generic_error_retryability (name message endpoint : String) (t : Nat)
    (attempts : Nat → Except Err Json) (e : Err)
    (h0 : attempts 0 = Except.error e) (hr : isRetryableError e = false) :
    isRetryableError (Err.generic name message) =
      (strContains message "Network error" || strContains message "fetch failed" ||
        strContains message "ECONNREFUSED") ∧
    isRetryableError Err.nonError = false ∧
    (strContains (timeoutMessage endpoint t) "Network error" = false →
      strContains (timeoutMessage endpoint t) "fetch failed" = false →
      strContains (timeoutMessage endpoint t) "ECONNREFUSED" = false →
      isRetryableError (Err.generic "Error" (timeoutMessage endpoint t)) = false) ∧
    request false attempts = (Except.error e, 1, []) := by
  refine ⟨rfl, rfl, fun ha hb hc => ?_, request_error_no_retry attempts e h0 hr⟩
  simp [isRetryableError, ha, hb, hc]

/-- Witness for `generic_error_retryability`: a non-retryable TypeError
message propagates after one attempt; a marker-free timeout message is
not retryable. -/
theorem generic_error_retryability_witness :
    isRetryableError (Err.generic "Error" "boom") =
      (strContains "boom" "Network error" || strContains "boom" "fetch failed" ||
        strContains "boom" "ECONNREFUSED") ∧
    isRetryableError Err.nonError = false ∧
    isRetryableError (Err.generic "Error" (timeoutMessage "/users" 5)) = false ∧
    request false (fun _ => Except.error (Err.generic "TypeError" "boom")) =
      (Except.error (Err.generic "TypeError" "boom"), 1, []) := by
  have h := generic_error_retryability "Error" "boom" "/users" 5
    (fun _ => Except.error (Err.generic "TypeError" "boom"))
    (Err.generic "TypeError" "boom") rfl (by decide)
  exact ⟨h.1, h.2.1, h.2.2.1 (by decide) (by decide) (by decide), h.2.2.2⟩

/-- C6 counterexample: a 2xx response with the non-JSON content type
CORS throws, from inside the try block, the invalid-format error whose
message embeds that content type; the catch block then re-classifies it
into the normalized network error, which does not name the content type
and is retryable, so the retry loop runs 3 attempts on it. -/
theorem cors_content_type_reclassified :
    executeRequest demoState "/x" (some "GET") none "ts"
        (FetchOutcome.response 200 (some "CORS") Json.null) =
      Except.error (Err.generic "Error" (networkErrorMessage demoState.baseURL)) ∧
    networkErrorMessage demoState.baseURL ≠ invalidFormatMessage (some "CORS") ∧
    isRetryableError (Err.generic "Error" (networkErrorMessage demoState.baseURL))
      = true ∧
    (request false (fun _ => executeRequest demoState "/x" (some "GET") none "ts"
        (FetchOutcome.response 200 (some "CORS") Json.null))).2.1 = 3 :=
  ⟨rfl, by decide, rfl, rfl⟩

/-- C6 amended: every attempt resolves to a decoded envelope or a thrown
error; a response whose content type does not indicate JSON raises,
without any parse attempt and independent of the body, a generic error:
the invalid-format error naming the observed content type (or unknown
when absent) — unless that message contains CORS or Network request
failed (a content type embedding such a marker), in which case the catch
block re-classifies it into the normalized network error naming the base
address; and a RendevoAPIError is produced only for a response whose
transport status is outside the 2xx range, with that status as its
statusCode. -/
theorem attempt_outcome_classification (st : BaseClientState) (endpoint : String)
    (optMethod : Option String) (optTimeout : Option Nat) (now : String) :
    (∀ outcome, (∃ envelope, executeRequest st endpoint optMethod optTimeout now
        outcome = Except.ok envelope) ∨
      (∃ e, executeRequest st endpoint optMethod optTimeout now outcome =
        Except.error e)) ∧
    (∀ status contentType body,
      (match contentType with
       | some c => strContains c "application/json"
       | none => false) = false →
      (executeRequest st endpoint optMethod optTimeout now
          (FetchOutcome.response status contentType body) =
        Except.error (if strContains (invalidFormatMessage contentType) "CORS" ||
            strContains (invalidFormatMessage contentType) "Network request failed" then
          Err.generic "Error" (networkErrorMessage st.baseURL)
        else
          Err.generic "Error" (invalidFormatMessage contentType))) ∧
      (strContains (invalidFormatMessage contentType) "CORS" = false →
        strContains (invalidFormatMessage contentType) "Network request failed" = false →
        executeRequest st endpoint optMethod optTimeout now
            (FetchOutcome.response status contentType body) =
          Except.error (Err.generic "Error" (invalidFormatMessage contentType))) ∧
      (∀ body', executeRequest st endpoint optMethod optTimeout now
          (FetchOutcome.response status contentType body) =
        executeRequest st endpoint optMethod optTimeout now
          (FetchOutcome.response status contentType body'))) ∧
    (∀ c, c ≠ "" → invalidFormatMessage (some c) =
      "Invalid response format: expected JSON but got " ++ c) ∧
    invalidFormatMessage none =
      "Invalid response format: expected JSON but got unknown" ∧
    (∀ outcome statusCode payload,
      executeRequest st endpoint optMethod optTimeout now outcome =
        Except.error (Err.api statusCode payload) →
      ∃ contentType body,
        outcome = FetchOutcome.response statusCode contentType body ∧
        statusOk statusCode = false) := by
  refine ⟨fun outcome => ?_,
    fun status contentType body hct => ⟨?_, fun hm1 hm2 => ?_, fun body' => ?_⟩,
    fun c hc => ?_, rfl, fun outcome statusCode payload h => ?_⟩
  · cases hres : executeRequest st endpoint optMethod optTimeout now outcome with
    | ok v => exact Or.inl ⟨v, rfl⟩
    | error e => exact Or.inr ⟨e, rfl⟩
  · simp [executeRequest, tryRequest, catchClassify, hct]
  · simp [executeRequest, tryRequest, catchClassify, hct, hm1, hm2]
  · simp [executeRequest, tryRequest, catchClassify, hct]
  · simp [invalidFormatMessage, hc]
  · cases outcome with
    | response rstatus rct rbody =>
      cases hct : (match rct with
          | some c => strContains c "application/json"
          | none => false) with
      | false =>
        by_cases hm : (strContains (invalidFormatMessage rct) "CORS" ||
            strContains (invalidFormatMessage rct) "Network request failed") = true
        · simp [executeRequest, tryRequest, catchClassify, hct, hm] at h
        · simp [executeRequest, tryRequest, catchClassify, hct, hm] at h
      | true =>
        cases hok : statusOk rstatus with
        | false =>
          by_cases hb : (isObjectLike rbody && hasField rbody "message" &&
              hasField rbody "statusCode") = true
          · simp [executeRequest, tryRequest, catchClassify, hct, hok, hb] at h
            obtain ⟨h1, -⟩ := h
            exact ⟨rct, rbody, by rw [h1], by rw [← h1, hok]⟩
          · simp [executeRequest, tryRequest, catchClassify, hct, hok, hb] at h
            obtain ⟨h1, -⟩ := h
            exact ⟨rct, rbody, by rw [h1], by rw [← h1, hok]⟩
        | true =>
          by_cases hb : (isObjectLike rbody && hasField rbody "data" &&
              hasField rbody "success") = true
          · simp [executeRequest, tryRequest, catchClassify, hct, hok, hb] at h
          · simp [executeRequest, tryRequest, catchClassify, hct, hok, hb] at h
    | abortError => simp [executeRequest, tryRequest, catchClassify] at h
    | throwErr nm msg =>
      by_cases hn : nm = "AbortError"
      · simp [executeRequest, tryRequest, catchClassify, hn] at h
      · by_cases hm : (strContains msg "CORS" ||
            strContains msg "Network request failed") = true
        · simp [executeRequest, tryRequest, catchClassify, hn, hm] at h
        · simp [executeRequest, tryRequest, catchClassify, hn, hm] at h
    | throwNonError => simp [executeRequest, tryRequest, catchClassify] at h

/-- Witness for `attempt_outcome_classification`: a non-JSON text/html
response (marker-free) raises the generic invalid-format error naming
text/html. -/
theorem attempt_outcome_classification_witness :
    executeRequest demoState "/users" (some "GET") none "ts"
        (FetchOutcome.response 200 (some "text/html") Json.null) =
      Except.error (Err.generic "Error" (invalidFormatMessage (some "text/html"))) ∧
    invalidFormatMessage (some "text/html") =
      "Invalid response format: expected JSON but got text/html" := by
  have h := attempt_outcome_classification demoState "/users" (some "GET") none "ts"
  exact ⟨(h.2.1 200 (some "text/html") Json.null (by decide)).2.1
      (by decide) (by decide),
    h.2.2.1 "text/html" (by decide)⟩
